import Mathlib

/-!
Verification of the readiness/accessibility evaluation core of the services
dashboard: the `SystemCheck` onboarding screen
(src/src/modules/onboarding/components/SystemCheck.tsx) and the `ServiceCard`
controller (src/unnamed/part_000).  Each definition is a shallow embedding of
the corresponding source function; helpers that the repository keeps outside
src/ (the status helpers in shared/helpers/utils, the warning-modal hook, and
the query-key constants) are modelled from the specification and marked as
such in their doc comments.
-/

namespace App

/-- Modelled from the spec: the closed `Status` enumeration is owned by the
external classifier helper `getServiceStatus` in shared/helpers/utils, which
is not under src/.  The spec names `coming_soon` plus other operational states
(running / stopped / error). -/
inductive Status where
  | coming_soon
  | running
  | stopped
  | error
  deriving DecidableEq

/-- Modelled from the spec: `checkIfAccessible` lives in shared/helpers/utils,
which is not under src/.  The spec's contract: given a `Status` it returns a
boolean; `coming_soon` maps to not accessible, and all other statuses in the
enumeration map to accessible, with every status value handled explicitly. -/
def checkIfAccessible : Status → Bool
  | Status.coming_soon => false
  | Status.running => true
  | Status.stopped => true
  | Status.error => true

/-- Nested model-info record read by `ServiceCard` (`service.modelInfo?.memoryRequirements`). -/
structure ModelInfo where
  memoryRequirements : Option Nat

/-- The `Service` entity as read by `ServiceCard` (src/unnamed/part_000):
identifier, display name, icon, optional service-type tag, optional declared
interface-id list, update flag, optional model info, optional beta/petals
flags. -/
structure Service where
  id : String
  name : String
  icon : String
  serviceType : Option String
  interfaces : Option (List String)
  needsUpdate : Bool
  modelInfo : Option ModelInfo
  beta : Option Bool
  petals : Option Bool

/-- An `Interface` record from the external interfaces collection; `ServiceCard`
only inspects its `id` (the filter in src/unnamed/part_000 line 52). -/
structure InterfaceApp where
  id : String
  deriving DecidableEq

/-- The redirect target computed by `ServiceCard` (src/unnamed/part_000 lines
33-36): `"/"` when the classified status is `coming_soon`, otherwise
`/services/{id}/{serviceType ?? "docker"}/detail`. -/
def redirectLink (status : Status) (service : Service) : String :=
  if status = Status.coming_soon then "/"
  else "/services/" ++ service.id ++ "/" ++ service.serviceType.getD "docker" ++ "/detail"

/-- A DOM click event, reduced to the one observable `ServiceCard` touches:
whether default navigation has been suppressed. -/
structure ClickEvent where
  defaultPrevented : Bool
  deriving DecidableEq

/-- The warning-modal open/closed flag exposed by `useWarningModal`. -/
structure WarningModalState where
  isWarningModalOpen : Bool
  deriving DecidableEq

/-- Modelled from the spec: `useWarningModal`'s `openWarningModal` is in
../hooks/useWarningModal, which is not under src/.  The spec says the click is
intercepted (default navigation suppressed) and the warning affordance opened. -/
def openWarningModal (e : ClickEvent) (st : WarningModalState) :
    ClickEvent × WarningModalState :=
  ({ e with defaultPrevented := true }, { st with isWarningModalOpen := true })

/-- The `onClick` handler of the card's `Link`
(src/unnamed/part_000 line 41): `(e) => !isAccessible && openWarningModal(e)`.
When the service is not accessible the warning modal is opened on the event;
otherwise the handler does nothing and the event and modal state pass through. -/
def cardOnClick (isAccessible : Bool) (e : ClickEvent) (st : WarningModalState) :
    ClickEvent × WarningModalState :=
  if !isAccessible then openWarningModal e st else (e, st)

/-- Interface resolution in `ServiceCard` (src/unnamed/part_000 line 52):
`interfaces?.filter((app) => service.interfaces?.includes(app.id)) ?? []`.
An absent interfaces collection yields `[]`; an absent declared id list makes
the filter predicate falsy for every element. -/
def resolvedInterfaces (interfaces : Option (List InterfaceApp)) (service : Service) :
    List InterfaceApp :=
  match interfaces with
  | none => []
  | some l =>
    l.filter fun app =>
      match service.interfaces with
      | none => false
      | some ids => ids.contains app.id

/-- Modelled from the spec: the fixed collection key exported by
shared/hooks/useGetServices, which is not under src/; its concrete value is
immaterial to the claims. -/
def SERVICES_KEY : String := "getServices"

/-- Modelled from the spec: the fixed single-service key exported by
shared/hooks/useGetService, which is not under src/; its concrete value is
immaterial to the claims. -/
def SERVICE_KEY : String := "getService"

/-- A side effect issued against the query cache by `ServiceCard`'s `refetch`. -/
inductive QueryEffect where
  | refetchQueries (queryKey : List String)
  | invalidateQueries (queryKey : List String)
  deriving DecidableEq

/-- The `refetch` callback of `ServiceCard` (src/unnamed/part_000 lines 26-30):
one invocation issues a force-refetch of the services collection and an
invalidation of the single-service entry keyed by this service's id, then
returns.  The effects are recorded in issue order. -/
def refetch (serviceId : String) : List QueryEffect :=
  [QueryEffect.refetchQueries [SERVICES_KEY],
   QueryEffect.invalidateQueries [SERVICE_KEY, serviceId]]

/-- `n` successive invocations of `refetch`, with all issued effects
concatenated in order. -/
def invokeRefetchN (serviceId : String) : Nat → List QueryEffect
  | 0 => []
  | Nat.succ m => refetch serviceId ++ invokeRefetchN serviceId m

/-- The `memory_limit` field of the system-stats payload
(`response?.data?.memory_limit`). -/
structure SystemStatsData where
  memory_limit : Option Nat

/-- The system-stats response wrapper: `response?.data` is itself optional. -/
structure SystemStatsResponse where
  data : Option SystemStatsData

/-- The memory-limit display string of `SystemCheck` (SystemCheck.tsx line 21):
`response?.data?.memory_limit ? "${...}GiB" : ""`.  JavaScript truthiness makes
the numeric value 0 take the falsy branch exactly like an absent value. -/
def memoryLimit (response : Option SystemStatsResponse) : String :=
  match (response.bind (fun r => r.data)).bind (fun d => d.memory_limit) with
  | some n => if n = 0 then "" else toString n ++ "GiB"
  | none => ""

/-- The props of one `Dependency` row as rendered by `SystemCheck`; `isLoading`
is only supplied for the memory row, hence optional. -/
structure DependencyRow where
  isLoading : Option Bool
  isRunning : Bool
  status : String
  name : String
  id : String

/-- The observable outputs of one render of `SystemCheck`: the three dependency
rows and the disabled flag of the Next progression button. -/
structure SystemCheckView where
  dockerRow : DependencyRow
  daemonRow : DependencyRow
  memoryRow : DependencyRow
  nextDisabled : Bool

/-- One render of `SystemCheck` (SystemCheck.tsx lines 12-121), restricted to
its decision outputs: the Docker row mirrors `isDockerRunning`, the Daemon row
mirrors `isServerRunning`, the Memory row always gets `isRunning={false}` plus
the stats loading flag and the display string, and the Next button is disabled
as `!(isDockerRunning && isServerRunning)`. -/
def SystemCheck (isDockerRunning isServerRunning : Bool)
    (response : Option SystemStatsResponse) (isLoading : Bool) : SystemCheckView :=
  { dockerRow :=
      { isLoading := none
        isRunning := isDockerRunning
        status := if isDockerRunning then "Found" else "Not Found"
        name := "Docker"
        id := "docker" }
    daemonRow :=
      { isLoading := none
        isRunning := isServerRunning
        status := if isServerRunning then "Running" else "Not Running"
        name := "Daemon"
        id := "daemon" }
    memoryRow :=
      { isLoading := some isLoading
        isRunning := false
        status := memoryLimit response
        name := "Memory"
        id := "memory" }
    nextDisabled := !(isDockerRunning && isServerRunning) }

/-- A concrete sample service used by witness theorems. -/
def svcSample : Service :=
  { id := "svc1"
    name := "Sample"
    icon := "icon.png"
    serviceType := none
    interfaces := some ["a", "c"]
    needsUpdate := false
    modelInfo := none
    beta := none
    petals := none }

/-- A sample service with no declared interface-id list, used by witness
theorems. -/
def svcNoInterfaces : Service := { svcSample with interfaces := none }

/-- C1: for every pair of booleans (isDockerRunning, isServerRunning), the
onboarding progression control is enabled (not disabled) if and only if both
isDockerRunning and isServerRunning are true; any other combination disables
it, for every memory-stats response and loading flag. -/
theorem onboarding_progression_gate (d s : Bool)
    (resp : Option SystemStatsResponse) (l : Bool) :
    ((SystemCheck d s resp l).nextDisabled = false) ↔ (d = true ∧ s = true) := by
  cases d <;> cases s <;> simp [SystemCheck]

/-- C2: the redirect target computed by ServiceCard is "/" when the classified
status is coming_soon, and otherwise /services/{id}/{serviceType}/detail with
serviceType defaulting to "docker" when the service declares none. -/
theorem redirect_target (status : Status) (service : Service) :
    (status = Status.coming_soon → redirectLink status service = "/")
  ∧ (status ≠ Status.coming_soon →
      redirectLink status service =
        "/services/" ++ service.id ++ "/" ++ service.serviceType.getD "docker"
          ++ "/detail") := by
  constructor
  · intro h
    simp [redirectLink, h]
  · intro h
    simp [redirectLink, h]

/-- Witness for C2: at the sample service (which declares no service-type) the
coming_soon branch gives "/" and the running branch gives the docker-defaulted
detail path. -/
theorem redirect_target_witness :
    redirectLink Status.coming_soon svcSample = "/"
  ∧ redirectLink Status.running svcSample =
      "/services/" ++ svcSample.id ++ "/" ++ svcSample.serviceType.getD "docker"
        ++ "/detail" :=
  ⟨(redirect_target Status.coming_soon svcSample).1 rfl,
   (redirect_target Status.running svcSample).2 (by decide)⟩

/-- C3: when the Accessibility Gate returns false for the service's status, the
card's click handler suppresses default navigation and opens the warning
affordance; when it returns true, the event and the modal state pass through
unchanged. -/
theorem click_interception (status : Status) (e : ClickEvent)
    (st : WarningModalState) :
    cardOnClick (checkIfAccessible status) e st =
      if checkIfAccessible status then (e, st)
      else ({ e with defaultPrevented := true },
            { st with isWarningModalOpen := true }) := by
  cases h : checkIfAccessible status <;> simp [cardOnClick, openWarningModal, h]

/-- C4: the Accessibility Gate is total on the closed Status enumeration —
every Status value maps to a defined boolean — and coming_soon maps to false. -/
theorem accessibility_total :
    (∀ st : Status, checkIfAccessible st = true ∨ checkIfAccessible st = false)
  ∧ checkIfAccessible Status.coming_soon = false := by
  refine ⟨fun st => ?hcases, rfl⟩
  cases st <;> simp [checkIfAccessible]

/-- C5: the resolved interface set equals exactly the subset of the full
interfaces collection whose id appears in the service's declared interface-id
list, in the full collection's order (a filter of the full collection); an
unavailable collection or an absent declared list yields the empty list. -/
theorem interface_resolution (i : Option (List InterfaceApp)) (service : Service) :
    resolvedInterfaces i service
      = (i.getD []).filter (fun app => (service.interfaces.getD []).contains app.id)
  ∧ resolvedInterfaces none service = []
  ∧ (service.interfaces = none → resolvedInterfaces i service = []) := by
  refine ⟨?heq, rfl, ?habsent⟩
  · cases i with
    | none => rfl
    | some l =>
      cases h : service.interfaces with
      | none => simp [resolvedInterfaces, h]
      | some ids => simp [resolvedInterfaces, h]
  · intro h
    cases i with
    | none => rfl
    | some l => simp [resolvedInterfaces, h]

/-- Witness for C5: a service with no declared interface-id list resolves to
the empty list, and the spec's concrete example (service declaring ["a","c"]
against the full collection [a,b,c]) resolves to [a,c] in order. -/
theorem interface_resolution_witness :
    resolvedInterfaces (some [⟨"a"⟩, ⟨"b"⟩, ⟨"c"⟩]) svcNoInterfaces = []
  ∧ resolvedInterfaces (some [⟨"a"⟩, ⟨"b"⟩, ⟨"c"⟩]) svcSample = [⟨"a"⟩, ⟨"c"⟩] := by
  constructor
  · exact (interface_resolution (some [⟨"a"⟩, ⟨"b"⟩, ⟨"c"⟩]) svcNoInterfaces).2.2 rfl
  · have h := (interface_resolution (some [⟨"a"⟩, ⟨"b"⟩, ⟨"c"⟩]) svcSample).1
    rw [h]
    decide

/-- C6: each invocation of refetch issues exactly one force-refetch of the
services collection and one invalidation of the single-service entry keyed by
this service's id before returning, and n successive invocations issue exactly
n of each (2n effects total, no accumulation beyond one pair per call). -/
theorem refresh_effects (serviceId : String) (n : Nat) :
    refetch serviceId
      = [QueryEffect.refetchQueries [SERVICES_KEY],
         QueryEffect.invalidateQueries [SERVICE_KEY, serviceId]]
  ∧ (invokeRefetchN serviceId n).count (QueryEffect.refetchQueries [SERVICES_KEY]) = n
  ∧ (invokeRefetchN serviceId n).count
      (QueryEffect.invalidateQueries [SERVICE_KEY, serviceId]) = n
  ∧ (invokeRefetchN serviceId n).length = 2 * n := by
  refine ⟨rfl, ?hc1, ?hc2, ?hlen⟩
  · induction n with
    | zero => rfl
    | succ m ih => simp [invokeRefetchN, refetch, List.count_append, List.count_cons, ih]
  · induction n with
    | zero => rfl
    | succ m ih => simp [invokeRefetchN, refetch, List.count_append, List.count_cons, ih]
  · induction n with
    | zero => rfl
    | succ m ih =>
      simp [invokeRefetchN, refetch, ih]
      omega

/-- C7: the disabled state of the onboarding progression control is identical
across any two renders agreeing on isDockerRunning and isServerRunning,
whatever the memory-stats response and the memory probe's loading flag. -/
theorem memory_noninterference (d s : Bool) (r1 r2 : Option SystemStatsResponse)
    (l1 l2 : Bool) :
    (SystemCheck d s r1 l1).nextDisabled = (SystemCheck d s r2 l2).nextDisabled := rfl

/-- C8: the memory-limit display maps memory_limit = 8 to "8GiB" and an absent
memory_limit to "". -/
theorem memory_display_examples :
    memoryLimit (some { data := some { memory_limit := some 8 } }) = "8GiB"
  ∧ memoryLimit (some { data := some { memory_limit := none } }) = "" := by
  constructor <;> rfl

/-- C9: a defined memory_limit of 0 displays as "" rather than "0GiB" — the
truthiness test treats 0 exactly like an absent value. -/
theorem memory_display_zero :
    memoryLimit (some { data := some { memory_limit := some 0 } }) = ""
  ∧ memoryLimit (some { data := some { memory_limit := some 0 } })
      = memoryLimit (some { data := some { memory_limit := none } }) := ⟨rfl, rfl⟩

/-- C10: the Memory dependency row is rendered with isRunning = false for every
input, while the Docker and Daemon rows mirror their respective booleans. -/
theorem memory_row_never_running (d s : Bool) (resp : Option SystemStatsResponse)
    (l : Bool) :
    (SystemCheck d s resp l).memoryRow.isRunning = false
  ∧ (SystemCheck d s resp l).dockerRow.isRunning = d
  ∧ (SystemCheck d s resp l).daemonRow.isRunning = s := ⟨rfl, rfl, rfl⟩

end App
